import Mathlib

/-! Verification of the iso8601 crate's chrono conversion module
(src/src/chrono.rs): conversions from parsed ISO-8601 values
(crate::Date, crate::Time, crate::DateTime, crate::Duration) into the
chrono library's NaiveDate, NaiveTime, DateTime with FixedOffset, and
TimeDelta.

Modelling conventions:
- Rust `Result<T, ()>` is modelled as `Option T` (`Ok t` is `some t`,
  `Err(())` is `none`); `maybe.ok_or(())` is the identity under this view.
- Rust machine integers are modelled as `Int` (i32/i64) and `Nat`
  (u32/u64); the i32 arithmetic in the source stays far from the i32
  overflow boundary at every input appearing in a theorem below.
- chrono's constructors (`NaiveDate::from_ymd_opt`, `from_isoywd_opt`,
  `from_yo_opt`, `NaiveTime::from_hms_opt`, `FixedOffset::east_opt`,
  `TimeZone::from_local_datetime(..).single()`, `TimeDelta::new`) are
  embedded in namespace `Chrono`, faithful to chrono 0.4's documented and
  implemented semantics, including its representable ranges.
-/

namespace Chrono

/-- chrono's minimum representable calendar year
(`internals::MIN_YEAR = i32::MIN >> 13 = -262144`). -/
def MIN_YEAR : Int := -262144

/-- chrono's maximum representable calendar year
(`internals::MAX_YEAR = i32::MAX >> 13 = 262143`). -/
def MAX_YEAR : Int := 262143

/-- Proleptic-Gregorian leap-year rule, as computed by chrono's
`YearFlags::from_year` (which reduces the year with `rem_euclid`;
Lean's `%` on `Int` is also euclidean on positive moduli). -/
def isLeap (y : Int) : Bool := y % 4 == 0 && (y % 100 != 0 || y % 400 == 0)

/-- Number of days in calendar year `y` (chrono `YearFlags::ndays`). -/
def daysInYear (y : Int) : Nat := if isLeap y then 366 else 365

/-- Length of month `m` (1..12) in a (non-)leap year; 0 outside 1..12. -/
def monthLen (leap : Bool) (m : Nat) : Nat :=
  match m with
  | 1 => 31
  | 2 => if leap then 29 else 28
  | 3 => 31
  | 4 => 30
  | 5 => 31
  | 6 => 30
  | 7 => 31
  | 8 => 31
  | 9 => 30
  | 10 => 31
  | 11 => 30
  | 12 => 31
  | _ => 0

/-- Days of the year strictly before month `m` begins
(`monthLen leap 0 = 0`, so the `i = 0` summand vanishes). -/
def daysBeforeMonth (leap : Bool) (m : Nat) : Nat :=
  (List.range m).foldl (fun acc i => acc + monthLen leap i) 0

/-- The month containing day-of-year `ord` (chrono recovers this from its
packed month/day-of-month representation; stated arithmetically here). -/
def monthOfOrd (leap : Bool) (ord : Nat) : Nat :=
  if ord ≤ daysBeforeMonth leap 2 then 1
  else if ord ≤ daysBeforeMonth leap 3 then 2
  else if ord ≤ daysBeforeMonth leap 4 then 3
  else if ord ≤ daysBeforeMonth leap 5 then 4
  else if ord ≤ daysBeforeMonth leap 6 then 5
  else if ord ≤ daysBeforeMonth leap 7 then 6
  else if ord ≤ daysBeforeMonth leap 8 then 7
  else if ord ≤ daysBeforeMonth leap 9 then 8
  else if ord ≤ daysBeforeMonth leap 10 then 9
  else if ord ≤ daysBeforeMonth leap 11 then 10
  else if ord ≤ daysBeforeMonth leap 12 then 11
  else 12

/-- chrono `NaiveDate`: chrono stores a calendar year and a packed
ordinal-plus-year-flags word; modelled as the year and the 1-based
day-of-year. Two `NaiveDate`s are equal iff they name the same day. -/
structure NaiveDate where
  year : Int
  ordinal : Nat
deriving DecidableEq

/-- `Datelike::month` of a `NaiveDate`. -/
def NaiveDate.month (nd : NaiveDate) : Nat := monthOfOrd (isLeap nd.year) nd.ordinal

/-- `Datelike::day` of a `NaiveDate`. -/
def NaiveDate.day (nd : NaiveDate) : Nat :=
  nd.ordinal - daysBeforeMonth (isLeap nd.year) (monthOfOrd (isLeap nd.year) nd.ordinal)

/-- `NaiveDate::from_ymd_opt`: succeeds iff the year is within chrono's
representable range and (month, day) name a real day of that year. -/
def from_ymd_opt (y : Int) (m d : Nat) : Option NaiveDate :=
  if (MIN_YEAR ≤ y ∧ y ≤ MAX_YEAR) ∧ 1 ≤ m ∧ m ≤ 12 ∧ 1 ≤ d ∧ d ≤ monthLen (isLeap y) m
  then some ⟨y, daysBeforeMonth (isLeap y) m + d⟩
  else none

/-- `NaiveDate::from_yo_opt`: succeeds iff the year is representable and
the day-of-year is within the year's length. -/
def from_yo_opt (y : Int) (ddd : Nat) : Option NaiveDate :=
  if (MIN_YEAR ≤ y ∧ y ≤ MAX_YEAR) ∧ 1 ≤ ddd ∧ ddd ≤ daysInYear y
  then some ⟨y, ddd⟩
  else none

/-- chrono `Weekday`. -/
inductive Weekday where
  | mon
  | tue
  | wed
  | thu
  | fri
  | sat
  | sun
deriving DecidableEq

/-- `num_traits::FromPrimitive` for `chrono::Weekday`
(`Weekday::from_u32`): 0 = Monday .. 6 = Sunday, anything larger is None. -/
def Weekday.from_u32 (d : Nat) : Option Weekday :=
  match d with
  | 0 => some .mon
  | 1 => some .tue
  | 2 => some .wed
  | 3 => some .thu
  | 4 => some .fri
  | 5 => some .sat
  | 6 => some .sun
  | _ => none

/-- ISO weekday number: Monday = 1 .. Sunday = 7. -/
def Weekday.isoNum : Weekday → Nat
  | .mon => 1
  | .tue => 2
  | .wed => 3
  | .thu => 4
  | .fri => 5
  | .sat => 6
  | .sun => 7

/-- Day count of January 1 of year `y`, measured from January 1 of year 1
(proleptic Gregorian, floor division as required for negative years). -/
def daysBeforeYear (y : Int) : Int :=
  365 * (y - 1) + Int.fdiv (y - 1) 4 - Int.fdiv (y - 1) 100 + Int.fdiv (y - 1) 400

/-- Weekday index (0 = Monday .. 6 = Sunday) of day-of-year `ord` of year
`y`; calibration: January 1 of 2001 (day number 730485 = 7 * 104355) was a
Monday. -/
def wdIdx (y : Int) (ord : Nat) : Int := (daysBeforeYear y + (ord : Int) - 1) % 7

/-- `YearFlags::nisoweeks`: an ISO week-numbering year has 53 weeks iff
January 1 falls on Thursday, or on Wednesday in a leap year; else 52. -/
def nisoweeks (y : Int) : Nat :=
  if wdIdx y 1 = 3 ∨ (isLeap y = true ∧ wdIdx y 1 = 2) then 53 else 52

/-- `NaiveDate::from_isoywd_opt`: checks the week number against the ISO
year's week count, then resolves (ISO year, week, weekday) into an
ordinal date, spilling into the previous/next calendar year when the week
straddles a year boundary; the final ordinal date carries chrono's year
range check. Week 1 is the week containing January 4 (equivalently, the
year's first Thursday). -/
def from_isoywd_opt (y : Int) (w : Nat) (wd : Weekday) : Option NaiveDate :=
  if 1 ≤ w ∧ w ≤ nisoweeks y then
    let jan4wd : Int := wdIdx y 4 + 1
    let ord : Int := 7 * (w : Int) + (wd.isoNum : Int) - (jan4wd + 3)
    if ord < 1 then from_yo_opt (y - 1) (ord + (daysInYear (y - 1) : Int)).toNat
    else if (daysInYear y : Int) < ord then from_yo_opt (y + 1) (ord - (daysInYear y : Int)).toNat
    else from_yo_opt y ord.toNat
  else none

/-- chrono `NaiveTime` restricted to whole seconds, which is all
`from_hms_opt` produces (its nanosecond fraction is 0). -/
structure NaiveTime where
  hour : Nat
  minute : Nat
  second : Nat
deriving DecidableEq

/-- `NaiveTime::from_hms_opt`: succeeds iff hour < 24, minute < 60,
second < 60. -/
def from_hms_opt (h m s : Nat) : Option NaiveTime :=
  if h < 24 ∧ m < 60 ∧ s < 60 then some ⟨h, m, s⟩ else none

/-- `FixedOffset::east_opt`, the offset represented by its
`local_minus_utc` seconds: succeeds iff strictly between -86400 and
86400. -/
def east_opt (secs : Int) : Option Int :=
  if -86400 < secs ∧ secs < 86400 then some secs else none

/-- chrono `NaiveDateTime` (whole seconds). -/
structure NaiveDateTime where
  date : NaiveDate
  time : NaiveTime
deriving DecidableEq

/-- Seconds of a `NaiveDateTime` measured from 0001-01-01T00:00:00. -/
def NaiveDateTime.toSecs (t : NaiveDateTime) : Int :=
  (daysBeforeYear t.date.year + (t.date.ordinal : Int) - 1) * 86400
    + (t.time.hour : Int) * 3600 + (t.time.minute : Int) * 60 + (t.time.second : Int)

/-- Second count of `NaiveDateTime::MIN` (midnight of -262144-01-01). -/
def minDateTimeSecs : Int := daysBeforeYear MIN_YEAR * 86400

/-- Second count of the last whole second of `NaiveDateTime::MAX`
(23:59:59 of 262143-12-31; chrono's MAX additionally carries .999999999
of a second, irrelevant at whole-second granularity). -/
def maxDateTimeSecs : Int :=
  (daysBeforeYear MAX_YEAR + (daysInYear MAX_YEAR : Int) - 1) * 86400 + 86399

/-- chrono `DateTime<FixedOffset>`. chrono stores the UTC `NaiveDateTime`
together with the fixed offset and derives the local view as utc + offset;
since the constructor below receives the local view and subtracts the
offset, the local view is carried directly (the stored UTC instant is
`localDatetime.toSecs - offset`). Equality agrees with chrono's notion for
a fixed offset: same local reading and same offset. -/
structure DateTimeFixed where
  localDatetime : NaiveDateTime
  offset : Int
deriving DecidableEq

/-- `TimeZone::from_local_datetime(&local).single()` for a `FixedOffset`:
the offset of a fixed zone is unique, so the resolution is `Single`
exactly when `local - offset` stays inside chrono's `NaiveDateTime`
range (`checked_sub_offset`); otherwise the `LocalResult` is `None` and
`.single()` yields nothing. -/
def from_local_single (localDt : NaiveDateTime) (off : Int) : Option DateTimeFixed :=
  let utc := localDt.toSecs - off
  if minDateTimeSecs ≤ utc ∧ utc ≤ maxDateTimeSecs then some ⟨localDt, off⟩ else none

/-- `DateTime::naive_local`: utc + offset, i.e. the stored local view. -/
def DateTimeFixed.naive_local (f : DateTimeFixed) : NaiveDateTime := f.localDatetime

/-- `TimeDelta::MAX.num_seconds()` = i64::MAX / 1000. -/
def timeDeltaMaxSecs : Int := 9223372036854775

/-- Nanosecond part of `TimeDelta::MAX` = (i64::MAX % 1000) * 1000000. -/
def timeDeltaMaxNanos : Nat := 807000000

/-- `TimeDelta::MIN.num_seconds()` rounded toward minus infinity:
-i64::MAX / 1000 - 1. -/
def timeDeltaMinSecs : Int := -9223372036854776

/-- Nanosecond part of `TimeDelta::MIN` = 1e9 - 807000000. -/
def timeDeltaMinNanos : Nat := 193000000

/-- i64::MAX. -/
def i64Max : Int := 9223372036854775807

/-- `TimeDelta::new(secs, nanos)`: None iff nanos is not a sub-second
count or the pair falls outside [TimeDelta::MIN, TimeDelta::MAX]
(plus or minus i64::MAX milliseconds); the value itself is the pair. -/
def timeDelta_new (secs : Int) (nanos : Nat) : Option (Int × Nat) :=
  if 1000000000 ≤ nanos ∨ secs < timeDeltaMinSecs ∨ timeDeltaMaxSecs < secs
      ∨ (secs = timeDeltaMaxSecs ∧ timeDeltaMaxNanos < nanos)
      ∨ (secs = timeDeltaMinSecs ∧ nanos < timeDeltaMinNanos)
  then none
  else some (secs, nanos)

end Chrono

namespace Iso8601

/-- Modelled from the spec: `crate::Date` (spec section 3 CalendarDate),
the tagged union of the three calendar-day encodings; its definition
lives in the crate root, outside src/src/chrono.rs. Field types follow
the constructor calls in chrono.rs: the year is i32 (`Int`), the other
components u32 (`Nat`). -/
inductive Date where
  | YMD (year : Int) (month : Nat) (day : Nat)
  | Week (year : Int) (ww : Nat) (d : Nat)
  | Ordinal (year : Int) (ddd : Nat)
deriving DecidableEq

/-- Modelled from the spec: `crate::Time` (spec section 3 WallTime),
defined in the crate root outside src/src/chrono.rs; exactly the fields
chrono.rs reads: hour/minute/second (u32) and the signed split UTC
offset (i32). -/
structure Time where
  hour : Nat
  minute : Nat
  second : Nat
  tz_offset_hours : Int
  tz_offset_minutes : Int
deriving DecidableEq

/-- Modelled from the spec: `crate::DateTime` (spec section 3
TemporalInstant), a date paired with a wall time carrying the offset. -/
structure DateTime where
  date : Date
  time : Time
deriving DecidableEq

/-- `impl TryFrom<crate::Date> for chrono::NaiveDate` (chrono.rs lines
10-22): dispatch on the encoding; the Week arm first maps the raw `d`
through `chrono::Weekday::from_u32` and then calls `from_isoywd_opt`. -/
def naiveDate_try_from : Date → Option Chrono.NaiveDate
  | Date.YMD y m d => Chrono.from_ymd_opt y m d
  | Date.Week y ww d => (Chrono.Weekday.from_u32 d).bind fun wd => Chrono.from_isoywd_opt y ww wd
  | Date.Ordinal y ddd => Chrono.from_yo_opt y ddd

/-- `crate::Date::into_naive` (chrono.rs lines 27-29). -/
def Date.into_naive (d : Date) : Option Chrono.NaiveDate := naiveDate_try_from d

/-- `impl TryFrom<crate::Time> for chrono::NaiveTime` (chrono.rs lines
67-69). -/
def naiveTime_try_from (t : Time) : Option Chrono.NaiveTime :=
  Chrono.from_hms_opt t.hour t.minute t.second

/-- `impl TryFrom<crate::DateTime> for chrono::DateTime<FixedOffset>`
(chrono.rs lines 82-99). Note line 89 of the source: the combined value
is `tz_offset_hours * 3600 + tz_offset_minutes` (the variable is named
offset_minutes) and is handed to `FixedOffset::east_opt`, which takes
seconds. -/
def dateTimeFixed_try_from (iso : DateTime) : Option Chrono.DateTimeFixed :=
  let offset_minutes := iso.time.tz_offset_hours * 3600 + iso.time.tz_offset_minutes
  (Chrono.east_opt offset_minutes).bind fun offset =>
    (naiveTime_try_from iso.time).bind fun naive_time =>
      (naiveDate_try_from iso.date).bind fun naive_date =>
        Chrono.from_local_single ⟨naive_date, naive_time⟩ offset

/-- `crate::DateTime::into_fixed_offset` (chrono.rs lines 104-106). -/
def DateTime.into_fixed_offset (dt : DateTime) : Option Chrono.DateTimeFixed :=
  dateTimeFixed_try_from dt

/-- `crate::DateTime::into_naive` (chrono.rs lines 109-111):
`self.into_fixed_offset().map(|fxed| fxed.naive_local())`. -/
def DateTime.into_naive (dt : DateTime) : Option Chrono.NaiveDateTime :=
  (dt.into_fixed_offset).map Chrono.DateTimeFixed.naive_local

/-- Outcome of the Duration conversion, with the abnormal control
transfer of a Rust panic kept distinct from the returned error. -/
inductive DurationConv where
  | panicked
  | failed
  | ok (secs : Int) (nanos : Nat)
deriving DecidableEq

/-- `impl TryFrom<crate::Duration> for chrono::TimeDelta` (chrono.rs
lines 179-187), taken from the point where the input has been normalized
to `core::time::Duration` and split into `as_secs() : u64` and
`subsec_nanos() : u32`. Modelled from the spec: the
`From<crate::Duration> for core::time::Duration` normalization lives in
the crate root outside src/src/chrono.rs, and per spec section 4.1 the
operation's input is exactly this pre-normalized pair (non-negative
seconds, nanos < 1000000000). Line 183, `secs.try_into().unwrap()`,
aborts (panics) whenever the u64 seconds exceed i64::MAX. -/
def timeDelta_try_from (secs : Nat) (nanos : Nat) : DurationConv :=
  if Chrono.i64Max < (secs : Int) then DurationConv.panicked
  else
    match Chrono.timeDelta_new (secs : Int) nanos with
    | none => DurationConv.failed
    | some sn => DurationConv.ok sn.1 sn.2

/-- Spec-side predicate for C4: (y, m, d) names a real day of the
proleptic Gregorian calendar (month lengths and leap years accounted
for), with no range restriction on the year. -/
def isRealGregorianDay (y : Int) (m d : Nat) : Prop :=
  1 ≤ m ∧ m ≤ 12 ∧ 1 ≤ d ∧ d ≤ Chrono.monthLen (Chrono.isLeap y) m

instance (y : Int) (m d : Nat) : Decidable (isRealGregorianDay y m d) := by
  unfold isRealGregorianDay
  infer_instance

end Iso8601
namespace Iso8601

/-- Months have at most 31 days. -/
theorem monthLen_le_31 (leap : Bool) : ∀ m : Nat, m < 13 → Chrono.monthLen leap m ≤ 31 := by
  cases leap <;> decide

set_option maxRecDepth 40000 in
/-- A valid (month, day-of-month) pair is recovered by month-of-ordinal. -/
theorem ord_of_md_month (leap : Bool) :
    ∀ m : Nat, m < 13 → ∀ d : Nat, d < 32 → 1 ≤ m → 1 ≤ d → d ≤ Chrono.monthLen leap m →
      Chrono.monthOfOrd leap (Chrono.daysBeforeMonth leap m + d) = m := by
  cases leap <;> decide

set_option maxRecDepth 40000 in
/-- A valid day-of-year splits into a valid (month, day-of-month) pair
whose ordinal is the original day-of-year. -/
theorem md_of_ord_inv (leap : Bool) :
    ∀ o : Nat, o < 367 → 1 ≤ o → o ≤ (if leap then 366 else 365) →
      1 ≤ Chrono.monthOfOrd leap o ∧ Chrono.monthOfOrd leap o ≤ 12 ∧
      1 ≤ o - Chrono.daysBeforeMonth leap (Chrono.monthOfOrd leap o) ∧
      o - Chrono.daysBeforeMonth leap (Chrono.monthOfOrd leap o)
          ≤ Chrono.monthLen leap (Chrono.monthOfOrd leap o) ∧
      Chrono.daysBeforeMonth leap (Chrono.monthOfOrd leap o)
          + (o - Chrono.daysBeforeMonth leap (Chrono.monthOfOrd leap o)) = o := by
  cases leap <;> decide

/-- C1: instant conversion on the offset +01:23 attaches 3623 seconds
(tz_offset_hours * 3600 + tz_offset_minutes, chrono.rs line 89), not the
tz_offset_hours * 3600 + tz_offset_minutes * 60 = 4980 seconds the claim
states: minutes are added to the seconds total unconverted. -/
theorem offset_units_mismatch :
    (dateTimeFixed_try_from ⟨Date.YMD 2023 2 8, ⟨23, 40, 0, 1, 23⟩⟩).map
        Chrono.DateTimeFixed.offset = some 3623 ∧
    (1 * 3600 + 23 * 60 : Int) = 4980 ∧ (3623 : Int) ≠ 4980 := by decide

/-- C2: date conversion of a Week value rejects weekday 7 (Sunday) of the
valid week 2023-W06, contradicting the claim that weekday 1..=7 succeeds;
the raw weekday is fed to chrono's 0-based Weekday::from_u32, so d = 2
lands on the Wednesday 2023-02-08 instead of the ISO Tuesday 2023-02-07. -/
theorem week_weekday_mismatch :
    naiveDate_try_from (Date.Week 2023 6 7) = none ∧
    naiveDate_try_from (Date.Week 2023 6 2) = Chrono.from_ymd_opt 2023 2 8 ∧
    Chrono.from_ymd_opt 2023 2 8 ≠ Chrono.from_ymd_opt 2023 2 7 := by decide

/-- C3: instant conversion of 2023-02-08T23:40:00 with tz_offset_hours 1
and tz_offset_minutes 23 succeeds with local fields 2023-02-08 23:40:00
and attached fixed offset 3623 seconds east of UTC. -/
theorem instant_example_fields :
    (dateTimeFixed_try_from ⟨Date.YMD 2023 2 8, ⟨23, 40, 0, 1, 23⟩⟩).map
        (fun f => (f.localDatetime.date.year, f.localDatetime.date.month,
          f.localDatetime.date.day, f.localDatetime.time.hour,
          f.localDatetime.time.minute, f.localDatetime.time.second, f.offset))
      = some (2023, 2, 8, 23, 40, 0, 3623) := by rfl

/-- C4 (amended): within chrono's representable years -262144..=262143,
YMD conversion succeeds exactly on real proleptic-Gregorian days and the
result's year/month/day equal the inputs; outside that year range every
YMD value fails, even for real calendar days. -/
theorem ymd_conversion_correct (y : Int) (m d : Nat) :
    ((Chrono.MIN_YEAR ≤ y ∧ y ≤ Chrono.MAX_YEAR) →
      (isRealGregorianDay y m d →
        ∃ nd : Chrono.NaiveDate, naiveDate_try_from (Date.YMD y m d) = some nd ∧
          nd.year = y ∧ nd.month = m ∧ nd.day = d) ∧
      (¬ isRealGregorianDay y m d → naiveDate_try_from (Date.YMD y m d) = none)) ∧
    (¬ (Chrono.MIN_YEAR ≤ y ∧ y ≤ Chrono.MAX_YEAR) →
      naiveDate_try_from (Date.YMD y m d) = none) := by
  have hconv : naiveDate_try_from (Date.YMD y m d) = Chrono.from_ymd_opt y m d := rfl
  refine ⟨fun hy => ⟨fun hreal => ?_, fun hnot => ?_⟩, fun hy => ?_⟩
  · obtain ⟨hm1, hm2, hd1, hd2⟩ := hreal
    have hmonth : Chrono.monthOfOrd (Chrono.isLeap y)
        (Chrono.daysBeforeMonth (Chrono.isLeap y) m + d) = m :=
      ord_of_md_month (Chrono.isLeap y) m (by omega) d
        (by have := monthLen_le_31 (Chrono.isLeap y) m (by omega); omega) hm1 hd1 hd2
    refine ⟨⟨y, Chrono.daysBeforeMonth (Chrono.isLeap y) m + d⟩, ?_, rfl, ?_, ?_⟩
    · rw [hconv]
      unfold Chrono.from_ymd_opt
      rw [if_pos ⟨hy, hm1, hm2, hd1, hd2⟩]
    · exact hmonth
    · show Chrono.daysBeforeMonth (Chrono.isLeap y) m + d
          - Chrono.daysBeforeMonth (Chrono.isLeap y)
            (Chrono.monthOfOrd (Chrono.isLeap y)
              (Chrono.daysBeforeMonth (Chrono.isLeap y) m + d)) = d
      rw [hmonth]
      omega
  · rw [hconv]
    unfold Chrono.from_ymd_opt
    exact if_neg fun hc => hnot hc.2
  · rw [hconv]
    unfold Chrono.from_ymd_opt
    exact if_neg fun hc => hy hc.1

/-- Witness for C4 at 2023-02-08. -/
theorem ymd_conversion_correct_witness :
    ∃ nd : Chrono.NaiveDate, naiveDate_try_from (Date.YMD 2023 2 8) = some nd ∧
      nd.year = 2023 ∧ nd.month = 2 ∧ nd.day = 8 :=
  ((ymd_conversion_correct 2023 2 8).1 (by decide)).1 (by decide)

/-- C4 counterexample: 262144-01-01 is a real proleptic-Gregorian day,
yet YMD conversion fails (the year exceeds chrono's maximum 262143). -/
theorem ymd_real_day_out_of_range :
    isRealGregorianDay 262144 1 1 ∧ naiveDate_try_from (Date.YMD 262144 1 1) = none := by
  decide

/-- C5 (amended): within chrono's representable years, Ordinal conversion
succeeds exactly for day-of-year 1..=365 (366 in leap years) and agrees
with the YMD encoding built from the result's own month and day; outside
that year range every Ordinal value fails. -/
theorem ordinal_conversion_correct (y : Int) (ddd : Nat) :
    ((Chrono.MIN_YEAR ≤ y ∧ y ≤ Chrono.MAX_YEAR) →
      (1 ≤ ddd ∧ ddd ≤ Chrono.daysInYear y →
        ∃ nd : Chrono.NaiveDate, naiveDate_try_from (Date.Ordinal y ddd) = some nd ∧
          Chrono.from_ymd_opt y nd.month nd.day = some nd) ∧
      (ddd = 0 ∨ Chrono.daysInYear y < ddd → naiveDate_try_from (Date.Ordinal y ddd) = none)) ∧
    (¬ (Chrono.MIN_YEAR ≤ y ∧ y ≤ Chrono.MAX_YEAR) →
      naiveDate_try_from (Date.Ordinal y ddd) = none) := by
  have hconv : naiveDate_try_from (Date.Ordinal y ddd) = Chrono.from_yo_opt y ddd := rfl
  have hdy : Chrono.daysInYear y = if Chrono.isLeap y then 366 else 365 := rfl
  refine ⟨fun hy => ⟨fun hin => ?_, fun hout => ?_⟩, fun hy => ?_⟩
  · obtain ⟨h1, h2⟩ := hin
    have hb : ddd ≤ (if Chrono.isLeap y then 366 else 365) := hdy ▸ h2
    have h366 : ddd < 367 := by
      rcases Bool.eq_false_or_eq_true (Chrono.isLeap y) with h | h <;>
        simp [h] at hb <;> omega
    obtain ⟨q1, q2, q3, q4, q5⟩ := md_of_ord_inv (Chrono.isLeap y) ddd h366 h1 hb
    refine ⟨⟨y, ddd⟩, ?_, ?_⟩
    · rw [hconv]
      unfold Chrono.from_yo_opt
      rw [if_pos ⟨hy, h1, h2⟩]
    · show Chrono.from_ymd_opt y (Chrono.monthOfOrd (Chrono.isLeap y) ddd)
          (ddd - Chrono.daysBeforeMonth (Chrono.isLeap y)
            (Chrono.monthOfOrd (Chrono.isLeap y) ddd)) = some ⟨y, ddd⟩
      unfold Chrono.from_ymd_opt
      rw [if_pos ⟨hy, q1, q2, q3, q4⟩, q5]
  · rw [hconv]
    unfold Chrono.from_yo_opt
    refine if_neg fun hc => ?_
    obtain ⟨_, hc1, hc2⟩ := hc
    rcases hout with h | h <;> omega
  · rw [hconv]
    unfold Chrono.from_yo_opt
    exact if_neg fun hc => hy hc.1

/-- Witness for C5 at day 39 of 2023. -/
theorem ordinal_conversion_correct_witness :
    ∃ nd : Chrono.NaiveDate, naiveDate_try_from (Date.Ordinal 2023 39) = some nd ∧
      Chrono.from_ymd_opt 2023 nd.month nd.day = some nd :=
  ((ordinal_conversion_correct 2023 39).1 (by decide)).1 (by decide)

/-- C5 counterexample: day-of-year 1 is within 1..=365, yet Ordinal
conversion for year 262144 fails (chrono's year range). -/
theorem ordinal_day_one_out_of_range :
    (1 : Nat) ≤ 365 ∧ naiveDate_try_from (Date.Ordinal 262144 1) = none := by decide

/-- C6: Week 2023-W06-2, YMD 2023-02-08 and Ordinal 2023-039 all convert
successfully to one equal chrono date. -/
theorem three_encodings_agree :
    naiveDate_try_from (Date.Week 2023 6 2) = naiveDate_try_from (Date.YMD 2023 2 8) ∧
    naiveDate_try_from (Date.Ordinal 2023 39) = naiveDate_try_from (Date.YMD 2023 2 8) ∧
    (naiveDate_try_from (Date.YMD 2023 2 8)).isSome = true := by decide

/-- C7: when the normalized elapsed seconds exceed i64::MAX (here 2^63),
the Duration conversion panics via try_into().unwrap() instead of
returning the uniform error; seconds that fit in i64 but overflow
TimeDelta's range do return the error. -/
theorem duration_overflow_behavior :
    timeDelta_try_from 9223372036854775808 0 = DurationConv.panicked ∧
    DurationConv.panicked ≠ DurationConv.failed ∧
    timeDelta_try_from 100000000000000000 0 = DurationConv.failed := by decide

/-- C8: into_naive succeeds exactly when into_fixed_offset succeeds, its
value is the naive_local reading of the fixed-offset result, and it fails
whenever the full instant conversion fails. -/
theorem into_naive_spec (dt : DateTime) :
    ((dt.into_naive).isSome ↔ (dt.into_fixed_offset).isSome) ∧
    (∀ f : Chrono.DateTimeFixed, dt.into_fixed_offset = some f →
      dt.into_naive = some f.naive_local) ∧
    (dateTimeFixed_try_from dt = none → dt.into_naive = none) := by
  unfold DateTime.into_naive DateTime.into_fixed_offset
  cases h : dateTimeFixed_try_from dt <;> simp [h]

/-- Witness for C8 at the 2023-02-08T23:40:00+01:23 instant. -/
theorem into_naive_spec_witness :
    DateTime.into_naive ⟨Date.YMD 2023 2 8, ⟨23, 40, 0, 1, 23⟩⟩ =
      some ⟨⟨2023, 39⟩, ⟨23, 40, 0⟩⟩ :=
  (into_naive_spec ⟨Date.YMD 2023 2 8, ⟨23, 40, 0, 1, 23⟩⟩).2.1
    ⟨⟨⟨2023, 39⟩, ⟨23, 40, 0⟩⟩, 3623⟩ (by decide)

/-- C9: time conversion reads only hour, minute and second; two WallTimes
agreeing on those fields convert identically whatever their offsets. -/
theorem time_ignores_offset (t1 t2 : Time)
    (h : t1.hour = t2.hour ∧ t1.minute = t2.minute ∧ t1.second = t2.second) :
    naiveTime_try_from t1 = naiveTime_try_from t2 := by
  unfold naiveTime_try_from
  rw [h.1, h.2.1, h.2.2]

/-- Witness for C9: same 23:40:00 under offsets +01:23 and -05:30. -/
theorem time_ignores_offset_witness :
    naiveTime_try_from ⟨23, 40, 0, 1, 23⟩ = naiveTime_try_from ⟨23, 40, 0, -5, 30⟩ :=
  time_ignores_offset ⟨23, 40, 0, 1, 23⟩ ⟨23, 40, 0, -5, 30⟩ ⟨rfl, rfl, rfl⟩

/-- C10: a Week value with d = 0 converts exactly as chrono's
from_isoywd with Monday (so it succeeds whenever chrono accepts the
(year, week) pair), while any d of 7 or more always fails. -/
theorem week_d_boundary (y : Int) (w : Nat) :
    naiveDate_try_from (Date.Week y w 0) = Chrono.from_isoywd_opt y w Chrono.Weekday.mon ∧
    (∀ d : Nat, 7 ≤ d → naiveDate_try_from (Date.Week y w d) = none) := by
  refine ⟨rfl, fun d hd => ?_⟩
  obtain ⟨n, rfl⟩ : ∃ n : Nat, d = n + 7 := ⟨d - 7, by omega⟩
  rfl

/-- Witness for C10 at year 2023, week 6, weekdays 0 and 7. -/
theorem week_d_boundary_witness :
    naiveDate_try_from (Date.Week 2023 6 0) = Chrono.from_isoywd_opt 2023 6 Chrono.Weekday.mon ∧
    naiveDate_try_from (Date.Week 2023 6 7) = none :=
  ⟨(week_d_boundary 2023 6).1, (week_d_boundary 2023 6).2 7 (by decide)⟩

end Iso8601
